import Mathlib

/-!
Shallow embedding of the chat route of 537-AI-ChatBox
(`src/app/(chat)/api/chat/route.ts`) together with the pieces of the
repository it calls. Pure translations from the TypeScript source; the
nondeterministic collaborators (the session provider, the model list, the
LLM streams, the UUID generator, the clock) are passed in as explicit
parameters. The persistence layer (`lib/db/queries`) and the helpers in
`lib/utils` are not part of the provided sources; they are modelled from
the specification where noted.
-/

namespace ChatBox

/-- Role of a chat message (user / assistant / tool). -/
inductive Role
  | user
  | assistant
  | tool
deriving DecidableEq, Repr

/-- An incoming request message: `convertToCoreMessages` (external `ai` SDK)
is modelled as the identity on role and content, which is all the route
observes of it. -/
structure InMsg where
  role : Role
  content : String
deriving DecidableEq, Repr

/-- Document kind, `z.enum(['text', 'code'])` in the tool schemas. -/
inductive DocKind
  | text
  | code
deriving DecidableEq, Repr

/-- String form of a kind, as it is written into a `kind` stream event. -/
def DocKind.str : DocKind → String
  | .text => "text"
  | .code => "code"

/-- A persisted Chat row: identifier, owning user, title. -/
structure Chat where
  id : String
  userId : String
  title : String
deriving DecidableEq, Repr

/-- A persisted Message row. Timestamps are modelled as naturals. -/
structure MessageRow where
  id : String
  chatId : String
  role : Role
  content : String
  createdAt : Nat
deriving DecidableEq, Repr

/-- A persisted Document row. -/
structure Document where
  id : String
  title : String
  kind : DocKind
  content : String
  userId : String
  createdAt : Nat
deriving DecidableEq, Repr

/-- A persisted Suggestion row. -/
structure SuggestionRow where
  id : String
  documentId : String
  originalText : String
  suggestedText : String
  description : String
  isResolved : Bool
  userId : String
  createdAt : Nat
  documentCreatedAt : Nat
deriving DecidableEq, Repr

/-- The relational store. Row order inside each table is not observable
through the modelled queries. -/
structure DB where
  chats : List Chat
  messages : List MessageRow
  documents : List Document
  suggestions : List SuggestionRow
deriving DecidableEq, Repr

/-- Modelled from the spec: `getChatById` of `lib/db/queries` (not in the
provided sources) fetches the chat row by identifier, none when absent. -/
def getChatById (db : DB) (id : String) : Option Chat :=
  db.chats.find? (fun c => c.id == id)

/-- Modelled from the spec: `saveChat` of `lib/db/queries` inserts one chat
row. -/
def saveChat (db : DB) (c : Chat) : DB :=
  { db with chats := c :: db.chats }

/-- Modelled from the spec: `saveMessages` of `lib/db/queries` appends the
given message rows. -/
def saveMessages (db : DB) (rows : List MessageRow) : DB :=
  { db with messages := rows ++ db.messages }

/-- Modelled from the spec: `getDocumentById` of `lib/db/queries` fetches
the document row by identifier, none when absent. -/
def getDocumentById (db : DB) (id : String) : Option Document :=
  db.documents.find? (fun d => d.id == id)

/-- Modelled from the spec: `saveDocument` of `lib/db/queries` overwrites
the document record in place (same identifier, keeping its creation time)
when it exists, and inserts a fresh row stamped `now` otherwise. -/
def saveDocument (db : DB) (id title : String) (kind : DocKind)
    (content userId : String) (now : Nat) : DB :=
  match db.documents.find? (fun d => d.id == id) with
  | some old =>
      { db with documents :=
          { id := id, title := title, kind := kind, content := content,
            userId := userId, createdAt := old.createdAt } ::
          db.documents.filter (fun d => d.id != id) }
  | none =>
      { db with documents :=
          { id := id, title := title, kind := kind, content := content,
            userId := userId, createdAt := now } :: db.documents }

/-- Modelled from the spec: `saveSuggestions` of `lib/db/queries` inserts
the given suggestion rows in one batch. -/
def saveSuggestions (db : DB) (rows : List SuggestionRow) : DB :=
  { db with suggestions := rows ++ db.suggestions }

/-- Modelled from the spec: `deleteChatById` of `lib/db/queries` deletes
all rows for that chat (the chat row and its messages). -/
def deleteChatById (db : DB) (id : String) : DB :=
  { db with
    chats := db.chats.filter (fun c => c.id != id),
    messages := db.messages.filter (fun m => m.chatId != id) }

/-- Modelled from the spec: `getMostRecentUserMessage` of `lib/utils`
returns the most recent user-authored message, none when the sequence
contains no user-authored message. -/
def getMostRecentUserMessage (messages : List InMsg) : Option InMsg :=
  (messages.filter (fun m => m.role == Role.user)).getLast?

/-- One entry of the configured model list (`lib/ai/models`). -/
structure AIModel where
  id : String
  apiIdentifier : String
deriving DecidableEq, Repr

/-- Body of a POST request: `{ id, messages, modelId }`. -/
structure PostRequest where
  id : String
  messages : List InMsg
  modelId : String
deriving DecidableEq, Repr

/-- Outcome of the pre-stream phase of POST: either an early error
response, or the state just before `createDataStreamResponse` starts the
stream, carrying the identifier under which the user message was
persisted. -/
inductive PostOutcome
  | errorResponse (status : Nat) (db : DB)
  | streamResponse (db : DB) (userMessageId : String)
deriving DecidableEq, Repr

/-- HTTP status of a pre-stream outcome (a stream response is 200). -/
def PostOutcome.status : PostOutcome → Nat
  | .errorResponse s _ => s
  | .streamResponse _ _ => 200

/-- Store state left by the pre-stream phase. -/
def PostOutcome.db : PostOutcome → DB
  | .errorResponse _ d => d
  | .streamResponse d _ => d

/-- Pre-stream phase of the POST handler (route.ts lines 70-127): session
guard (401), model lookup (404), most-recent-user-message guard (400);
then chat creation with a generated title when the id is new, and
persistence of the user message under a fresh identifier. `session` is the
authenticated user id when present; `genTitle` is the secondary
title-generation call; `userMessageId` is the UUID drawn for the user
message; `now` is the clock. -/
def POST (models : List AIModel) (session : Option String)
    (req : PostRequest) (genTitle : InMsg → String)
    (userMessageId : String) (now : Nat) (db : DB) : PostOutcome :=
  match session with
  | none => .errorResponse 401 db
  | some uid =>
    match models.find? (fun m => m.id == req.modelId) with
    | none => .errorResponse 404 db
    | some _ =>
      match getMostRecentUserMessage req.messages with
      | none => .errorResponse 400 db
      | some userMessage =>
        let db1 :=
          match getChatById db req.id with
          | none =>
              saveChat db { id := req.id, userId := uid,
                            title := genTitle userMessage }
          | some _ => db
        let db2 := saveMessages db1
          [{ id := userMessageId, chatId := req.id, role := userMessage.role,
             content := userMessage.content, createdAt := now }]
        .streamResponse db2 userMessageId

/-- DELETE handler (route.ts lines 550-579). Missing `id` query parameter
gives 404; missing session gives 401. Inside the try block the handler
reads `chat.userId` without a null check, so when `getChatById` finds no
row the property access throws and the catch-all maps it to 500; a
non-owner gets 401; the owner's chat is deleted with 200. -/
def DELETE (session : Option String) (idParam : Option String)
    (db : DB) : Nat × DB :=
  match idParam with
  | none => (404, db)
  | some id =>
    match session with
    | none => (401, db)
    | some uid =>
      match getChatById db id with
      | none => (500, db)
      | some chat =>
        if chat.userId != uid then (401, db)
        else (200, deleteChatById db id)

/-- Wire form of a suggestion as pushed in a `suggestion` stream event and
accumulated for the batch save (route.ts lines 447-454). -/
structure SuggestionWire where
  originalText : String
  suggestedText : String
  description : String
  id : String
  documentId : String
  isResolved : Bool
deriving DecidableEq, Repr

/-- One record of the outbound data stream. `data ty content` is a
`dataStream.writeData \x7btype, content\x7d` call with a string content;
`suggestion` carries the suggestion object of a `suggestion` event;
`annot` is a `writeMessageAnnotation` carrying `messageIdFromServer`. -/
inductive StreamEvent
  | data (ty : String) (content : String)
  | suggestion (s : SuggestionWire)
  | annot (messageIdFromServer : String)
deriving DecidableEq, Repr

/-- A delta of a `streamText` sub-generation `fullStream`: either a
`text-delta` chunk or any other delta type (ignored by the loops). -/
inductive TextStreamDelta
  | textDelta (s : String)
  | other
deriving DecidableEq, Repr

/-- A delta of a `streamObject` sub-generation `fullStream`: an `object`
delta whose `code` field may be absent, or any other delta type. -/
inductive ObjStreamDelta
  | object (code : Option String)
  | other
deriving DecidableEq, Repr

/-- The code value a delta makes the loop act on: `if (code)` in the
source, so an absent or empty string (JS-falsy) code is skipped. -/
def emittedCode : ObjStreamDelta → Option String
  | .object (some c) => if c = "" then none else some c
  | .object none => none
  | .other => none

/-- Accumulated draft of a text sub-generation loop: `draftText +=
textDelta` over the stream, starting from the empty string. -/
def textDraft (ds : List TextStreamDelta) : String :=
  ds.foldl (fun acc d => match d with
    | .textDelta s => acc ++ s
    | .other => acc) ""

/-- Events written by a text sub-generation loop: one `text-delta` event
per text delta, in stream order. -/
def textEvents (ds : List TextStreamDelta) : List StreamEvent :=
  ds.filterMap (fun d => match d with
    | .textDelta s => some (.data "text-delta" s)
    | .other => none)

/-- Accumulated draft of a code sub-generation loop: `draftText = code` on
each truthy code, so the last emitted code wins (empty when none). -/
def codeDraft (ds : List ObjStreamDelta) : String :=
  ds.foldl (fun acc d => match emittedCode d with
    | some c => c
    | none => acc) ""

/-- Events written by a code sub-generation loop: one whole-value
`code-delta` event per truthy code, in stream order. -/
def codeEvents (ds : List ObjStreamDelta) : List StreamEvent :=
  ds.filterMap (fun d => (emittedCode d).map (fun c => .data "code-delta" c))

/-- Result object returned by a tool `execute`: a tool-level error
(`\x7berror\x7d`), a document result (`\x7bid, title, kind, content\x7d`), or a
suggestions result (`\x7bid, title, kind, message\x7d`). -/
inductive ToolResult
  | errorRes (error : String)
  | docRes (id title kind content : String)
  | suggRes (id title kind message : String)
deriving DecidableEq, Repr

/-- Output of one tool execution: the events it wrote to the shared data
stream, the store it left behind, and its result object. -/
structure ToolOut where
  events : List StreamEvent
  db : DB
  result : ToolResult
deriving Repr

/-- The createDocument tool (route.ts lines 175-294). `docId` is the UUID
drawn for the new document; `textGen` and `codeGen` are the sub-generation
streams consulted for kind text resp. code. Writes id, title, kind, clear,
the content deltas, and finish; persists the accumulated draft when a
session user id is present. -/
def createDocumentExecute (sessionUserId : Option String)
    (docId title : String) (kind : DocKind)
    (textGen : List TextStreamDelta) (codeGen : List ObjStreamDelta)
    (now : Nat) (db : DB) : ToolOut :=
  let draftText : String :=
    match kind with
    | .text => textDraft textGen
    | .code => codeDraft codeGen
  let contentEvents : List StreamEvent :=
    match kind with
    | .text => textEvents textGen
    | .code => codeEvents codeGen
  let db1 : DB :=
    match sessionUserId with
    | some uid => saveDocument db docId title kind draftText uid now
    | none => db
  { events :=
      [.data "id" docId, .data "title" title, .data "kind" kind.str,
       .data "clear" ""] ++ contentEvents ++ [.data "finish" ""],
    db := db1,
    result := .docRes docId title kind.str
      "A document was created and is now visible to the user." }

/-- The updateDocument tool (route.ts lines 299-402). When the document is
absent it returns a tool-level error result, writes nothing and changes
nothing; otherwise it writes a clear event carrying the existing title,
regenerates content by the document's kind, overwrites the record (same
identifier, same title, same kind, new content) and returns a success
result. -/
def updateDocumentExecute (sessionUserId : Option String)
    (docId descr : String)
    (textGen : List TextStreamDelta) (codeGen : List ObjStreamDelta)
    (now : Nat) (db : DB) : ToolOut :=
  match getDocumentById db docId with
  | none => { events := [], db := db, result := .errorRes "Document not found" }
  | some document =>
    let draftText : String :=
      match document.kind with
      | .text => textDraft textGen
      | .code => codeDraft codeGen
    let contentEvents : List StreamEvent :=
      match document.kind with
      | .text => textEvents textGen
      | .code => codeEvents codeGen
    let db1 : DB :=
      match sessionUserId with
      | some uid =>
          saveDocument db docId document.title document.kind draftText uid now
      | none => db
    { events :=
        .data "clear" document.title :: contentEvents ++ [.data "finish" ""],
      db := db1,
      result := .docRes docId document.title document.kind.str
        "The document has been updated successfully." }

/-- One element produced by the suggestions sub-generation
(`elementStream` of a structured array generation). -/
structure SuggElement where
  originalSentence : String
  suggestedSentence : String
  description : String
deriving DecidableEq, Repr

/-- Suggestion wire object built for the k-th produced element, with a
freshly generated identifier. -/
def suggWireOf (freshId : Nat → String) (documentId : String) (k : Nat)
    (el : SuggElement) : SuggestionWire :=
  { originalText := el.originalSentence,
    suggestedText := el.suggestedSentence,
    description := el.description,
    id := freshId k,
    documentId := documentId,
    isResolved := false }

/-- Wire objects accumulated by the suggestions loop, one per element in
production order, with identifiers drawn in order from `freshId`. -/
def buildSuggestions (freshId : Nat → String) (documentId : String) :
    Nat → List SuggElement → List SuggestionWire
  | _, [] => []
  | k, el :: rest =>
      suggWireOf freshId documentId k el ::
      buildSuggestions freshId documentId (k + 1) rest

/-- Suggestion row built from a wire object for the batch save: the wire
fields spread, stamped with the requesting user, the save time and the
document's original creation time (route.ts lines 467-474). -/
def suggestionRowOf (uid : String) (now docCreatedAt : Nat)
    (w : SuggestionWire) : SuggestionRow :=
  { id := w.id, documentId := w.documentId,
    originalText := w.originalText,
    suggestedText := w.suggestedText,
    description := w.description,
    isResolved := w.isResolved,
    userId := uid, createdAt := now,
    documentCreatedAt := docCreatedAt }

/-- The requestSuggestions tool (route.ts lines 407-484). Absent document
or JS-falsy (empty) content gives a tool-level error result with no events
and no writes; otherwise one `suggestion` event per produced element in
order, then one batch save of that many rows, each stamped with the
requesting user, the current time, the target documentId and the
document's original creation time. -/
def requestSuggestionsExecute (sessionUserId : Option String)
    (documentId : String) (elements : List SuggElement)
    (freshId : Nat → String) (now : Nat) (db : DB) : ToolOut :=
  match getDocumentById db documentId with
  | none => { events := [], db := db, result := .errorRes "Document not found" }
  | some document =>
    if document.content = "" then
      { events := [], db := db, result := .errorRes "Document not found" }
    else
      let wires := buildSuggestions freshId documentId 0 elements
      let db1 : DB :=
        match sessionUserId with
        | some uid =>
            saveSuggestions db
              (wires.map (suggestionRowOf uid now document.createdAt))
        | none => db
      { events := wires.map StreamEvent.suggestion,
        db := db1,
        result := .suggRes documentId document.title document.kind.str
          "Suggestions have been added to the document" }

/-- One segment of the top-level model turn inside `streamText`: either a
stretch of model text content (merged into the data stream), or one tool
invocation with the model-chosen arguments and the oracles its execution
consumes. Tools run sequentially within the turn (each sub-generation is
awaited fully before the tool returns). -/
inductive TurnStep
  | textPart (s : String)
  | createDoc (docId title : String) (kind : DocKind)
      (textGen : List TextStreamDelta) (codeGen : List ObjStreamDelta)
  | updateDoc (docId descr : String)
      (textGen : List TextStreamDelta) (codeGen : List ObjStreamDelta)
  | requestSugg (documentId : String) (elements : List SuggElement)
      (freshId : Nat → String)
  | weather (latitude longitude : Int) (response : String)

/-- Events written by one turn segment and the store it leaves. Model text
is forwarded as a `text-delta` record; the weather tool writes no data
event and touches no table. -/
def runStep (sessionUserId : Option String) (now : Nat) (db : DB) :
    TurnStep → List StreamEvent × DB
  | .textPart s => ([.data "text-delta" s], db)
  | .createDoc docId title kind textGen codeGen =>
      let out := createDocumentExecute sessionUserId docId title kind
        textGen codeGen now db
      (out.events, out.db)
  | .updateDoc docId descr textGen codeGen =>
      let out := updateDocumentExecute sessionUserId docId descr
        textGen codeGen now db
      (out.events, out.db)
  | .requestSugg documentId elements freshId =>
      let out := requestSuggestionsExecute sessionUserId documentId elements
        freshId now db
      (out.events, out.db)
  | .weather _ _ _ => ([], db)

/-- The whole turn: segments processed in order on the single shared event
channel, threading the store. -/
def runTurn (sessionUserId : Option String) (now : Nat) :
    List TurnStep → DB → List StreamEvent × DB
  | [], db => ([], db)
  | step :: rest, db =>
      let first := runStep sessionUserId now db step
      let restOut := runTurn sessionUserId now rest first.2
      (first.1 ++ restOut.1, restOut.2)

/-- The `execute` callback of `createDataStreamResponse` (route.ts lines
131-540): writes the `user-message-id` event first, then runs the model
turn on the same stream. -/
def executeStream (sessionUserId : Option String) (userMessageId : String)
    (steps : List TurnStep) (now : Nat) (db : DB) :
    List StreamEvent × DB :=
  let turn := runTurn sessionUserId now steps db
  (.data "user-message-id" userMessageId :: turn.1, turn.2)

/-- POST followed by its streaming phase: an early error carries no
events; a stream response is a 200 whose event list starts with the
`user-message-id` record. -/
def handlePost (models : List AIModel) (session : Option String)
    (req : PostRequest) (genTitle : InMsg → String)
    (userMessageId : String) (steps : List TurnStep) (now : Nat)
    (db : DB) : Nat × List StreamEvent × DB :=
  match POST models session req genTitle userMessageId now db with
  | .errorResponse s db1 => (s, [], db1)
  | .streamResponse db1 umid =>
      let out := executeStream session umid steps now db1
      (200, out.1, out.2)

/-- One message of `response.messages` handed to `onFinish`. The flag
records whether the fragment represents an incomplete (unanswered) tool
invocation. -/
structure ResponseMessage where
  role : Role
  content : String
  incompleteToolCall : Bool
deriving DecidableEq, Repr

/-- Modelled from the spec: `sanitizeResponseMessages` of `lib/utils` (not
in the provided sources) strips the fragments that represent an incomplete
(unanswered) tool invocation. -/
def sanitizeResponseMessages (msgs : List ResponseMessage) :
    List ResponseMessage :=
  msgs.filter (fun m => !m.incompleteToolCall)

/-- The map body of `onFinish` (route.ts lines 503-525): for the k-th
sanitized message draw a fresh identifier, write a `messageIdFromServer`
annotation when the role is assistant, and build the row to persist. -/
def mapWithIds (freshId : Nat → String) (chatId : String) (now : Nat) :
    Nat → List ResponseMessage → List MessageRow × List StreamEvent
  | _, [] => ([], [])
  | k, m :: rest =>
      let mid := freshId k
      let tail := mapWithIds freshId chatId now (k + 1) rest
      ({ id := mid, chatId := chatId, role := m.role, content := m.content,
         createdAt := now } :: tail.1,
       (if m.role = Role.assistant then [StreamEvent.annot mid] else []) ++
         tail.2)

/-- The `onFinish` callback (route.ts lines 491-530): with a session user,
sanitize the response messages, emit annotations and build rows, then save
them; `saveFails` models `saveMessages` throwing, in which case the error
is caught (logged) and the store is left untouched while the annotations
written during the map stand. Returns the events written and the store. -/
def onFinish (sessionUserId : Option String) (chatId : String)
    (responseMessages : List ResponseMessage) (freshId : Nat → String)
    (saveFails : Bool) (now : Nat) (db : DB) :
    List StreamEvent × DB :=
  match sessionUserId with
  | none => ([], db)
  | some _ =>
      let out := mapWithIds freshId chatId now 0
        (sanitizeResponseMessages responseMessages)
      (out.2, if saveFails then db else saveMessages db out.1)

/-! Theorems. -/

/-- Claim C1: for every POST request the guards run before any side effect
and in this order — no valid session gives 401; then an unknown modelId
gives 404; then a message sequence with no user-authored message gives
400 — and in each case the store is returned untouched (no Chat row and no
Message row is created). -/
theorem post_guard_order (models : List AIModel) (req : PostRequest)
    (genTitle : InMsg → String) (umid : String) (now : Nat) (db : DB) :
    POST models none req genTitle umid now db = .errorResponse 401 db
    ∧ (∀ uid, models.find? (fun m => m.id == req.modelId) = none →
        POST models (some uid) req genTitle umid now db =
          .errorResponse 404 db)
    ∧ (∀ uid mdl, models.find? (fun m => m.id == req.modelId) = some mdl →
        getMostRecentUserMessage req.messages = none →
        POST models (some uid) req genTitle umid now db =
          .errorResponse 400 db) := by
  refine ⟨rfl, ?_, ?_⟩
  · intro uid hfind
    simp [POST, hfind]
  · intro uid mdl hfind hmsg
    simp [POST, hfind, hmsg]

/-- Witness for C1 at concrete inputs: an empty model list and a request
with no messages. -/
theorem post_guard_order_witness :
    POST [] none ⟨"c1", [], "m"⟩ (fun _ => "t") "u1" 0 ⟨[], [], [], []⟩
      = .errorResponse 401 ⟨[], [], [], []⟩
    ∧ POST [] (some "alice") ⟨"c1", [], "m"⟩ (fun _ => "t") "u1" 0
        ⟨[], [], [], []⟩
      = .errorResponse 404 ⟨[], [], [], []⟩
    ∧ POST [⟨"m", "gpt"⟩] (some "alice") ⟨"c1", [], "m"⟩ (fun _ => "t") "u1" 0
        ⟨[], [], [], []⟩
      = .errorResponse 400 ⟨[], [], [], []⟩ :=
  ⟨(post_guard_order [] ⟨"c1", [], "m"⟩ (fun _ => "t") "u1" 0
      ⟨[], [], [], []⟩).1,
   (post_guard_order [] ⟨"c1", [], "m"⟩ (fun _ => "t") "u1" 0
      ⟨[], [], [], []⟩).2.1 "alice" rfl,
   (post_guard_order [⟨"m", "gpt"⟩] ⟨"c1", [], "m"⟩ (fun _ => "t") "u1" 0
      ⟨[], [], [], []⟩).2.2 "alice" ⟨"m", "gpt"⟩ rfl rfl⟩

/-- Claim C7: past the guards, a chat id matching no Chat row makes POST
create exactly one Chat row titled by the secondary generation call on the
user's message and persist exactly one Message row for that message under
a fresh identifier and the current timestamp, all in the pre-stream phase;
with an existing Chat row the chat table is left as it was. -/
theorem post_new_chat_creates (models : List AIModel) (uid : String)
    (req : PostRequest) (genTitle : InMsg → String) (umid : String)
    (now : Nat) (db : DB) (mdl : AIModel) (msg : InMsg)
    (hfind : models.find? (fun m => m.id == req.modelId) = some mdl)
    (hmsg : getMostRecentUserMessage req.messages = some msg) :
    (getChatById db req.id = none →
      POST models (some uid) req genTitle umid now db =
        .streamResponse
          { db with
            chats := { id := req.id, userId := uid,
                       title := genTitle msg } :: db.chats,
            messages := { id := umid, chatId := req.id, role := msg.role,
                          content := msg.content, createdAt := now } ::
                        db.messages } umid)
    ∧ (∀ chat, getChatById db req.id = some chat →
        POST models (some uid) req genTitle umid now db =
          .streamResponse
            { db with
              messages := { id := umid, chatId := req.id, role := msg.role,
                            content := msg.content, createdAt := now } ::
                          db.messages } umid) := by
  constructor
  · intro hchat
    simp [POST, hfind, hmsg, hchat, saveChat, saveMessages]
  · intro chat hchat
    simp [POST, hfind, hmsg, hchat, saveMessages]

/-- Witness for C7: a fresh chat id on an empty store, then the same id on
a store already holding that chat. -/
theorem post_new_chat_creates_witness :
    POST [⟨"m", "gpt"⟩] (some "alice")
        ⟨"c1", [⟨Role.user, "hi"⟩], "m"⟩ (fun _ => "T") "u1" 5
        ⟨[], [], [], []⟩
      = .streamResponse
          ⟨[⟨"c1", "alice", "T"⟩],
           [⟨"u1", "c1", Role.user, "hi", 5⟩], [], []⟩ "u1"
    ∧ POST [⟨"m", "gpt"⟩] (some "alice")
        ⟨"c1", [⟨Role.user, "hi"⟩], "m"⟩ (fun _ => "T") "u2" 6
        ⟨[⟨"c1", "alice", "T"⟩], [⟨"u1", "c1", Role.user, "hi", 5⟩], [], []⟩
      = .streamResponse
          ⟨[⟨"c1", "alice", "T"⟩],
           [⟨"u2", "c1", Role.user, "hi", 6⟩,
            ⟨"u1", "c1", Role.user, "hi", 5⟩], [], []⟩ "u2" :=
  ⟨(post_new_chat_creates [⟨"m", "gpt"⟩] "alice"
      ⟨"c1", [⟨Role.user, "hi"⟩], "m"⟩ (fun _ => "T") "u1" 5
      ⟨[], [], [], []⟩ ⟨"m", "gpt"⟩ ⟨Role.user, "hi"⟩ rfl rfl).1 rfl,
   (post_new_chat_creates [⟨"m", "gpt"⟩] "alice"
      ⟨"c1", [⟨Role.user, "hi"⟩], "m"⟩ (fun _ => "T") "u2" 6
      ⟨[⟨"c1", "alice", "T"⟩], [⟨"u1", "c1", Role.user, "hi", 5⟩], [], []⟩
      ⟨"m", "gpt"⟩ ⟨Role.user, "hi"⟩ rfl rfl).2
     ⟨"c1", "alice", "T"⟩ rfl⟩

/-- Claim C10: with a valid session, a configured model and a user
message, a chat id owned by a different user is not rejected: POST
persists the user message into that chat and hands over to the stream (no
owner comparison exists on the POST path). -/
theorem post_ignores_chat_owner (models : List AIModel) (uid : String)
    (req : PostRequest) (genTitle : InMsg → String) (umid : String)
    (now : Nat) (db : DB) (mdl : AIModel) (msg : InMsg) (chat : Chat)
    (hfind : models.find? (fun m => m.id == req.modelId) = some mdl)
    (hmsg : getMostRecentUserMessage req.messages = some msg)
    (hchat : getChatById db req.id = some chat)
    (hown : chat.userId ≠ uid) :
    POST models (some uid) req genTitle umid now db =
      .streamResponse
        { db with
          messages := { id := umid, chatId := req.id, role := msg.role,
                        content := msg.content, createdAt := now } ::
                      db.messages } umid
    ∧ (POST models (some uid) req genTitle umid now db).status = 200 := by
  constructor
  · simp [POST, hfind, hmsg, hchat, saveMessages]
  · simp [POST, hfind, hmsg, hchat, PostOutcome.status]

/-- Witness for C10: bob posts into alice's chat and the message lands
there. -/
theorem post_ignores_chat_owner_witness :
    POST [⟨"m", "gpt"⟩] (some "bob")
        ⟨"c1", [⟨Role.user, "hi"⟩], "m"⟩ (fun _ => "T") "u2" 7
        ⟨[⟨"c1", "alice", "T"⟩], [], [], []⟩
      = .streamResponse
          ⟨[⟨"c1", "alice", "T"⟩],
           [⟨"u2", "c1", Role.user, "hi", 7⟩], [], []⟩ "u2" :=
  (post_ignores_chat_owner [⟨"m", "gpt"⟩] "bob"
    ⟨"c1", [⟨Role.user, "hi"⟩], "m"⟩ (fun _ => "T") "u2" 7
    ⟨[⟨"c1", "alice", "T"⟩], [], [], []⟩ ⟨"m", "gpt"⟩ ⟨Role.user, "hi"⟩
    ⟨"c1", "alice", "T"⟩ rfl rfl rfl (by decide)).1

/-- Claim C8: on a successful POST, the first record written to the
outbound stream is the `user-message-id` event, its content is the very
identifier under which the user message was just persisted (the freshest
Message row), and everything else — model content and tool events — comes
after it. -/
theorem stream_first_event (models : List AIModel) (uid : String)
    (req : PostRequest) (genTitle : InMsg → String) (umid : String)
    (steps : List TurnStep) (now : Nat) (db : DB) (mdl : AIModel)
    (msg : InMsg)
    (hfind : models.find? (fun m => m.id == req.modelId) = some mdl)
    (hmsg : getMostRecentUserMessage req.messages = some msg) :
    (POST models (some uid) req genTitle umid now db).db.messages.head? =
      some { id := umid, chatId := req.id, role := msg.role,
             content := msg.content, createdAt := now }
    ∧ (handlePost models (some uid) req genTitle umid steps now db).1 = 200
    ∧ (handlePost models (some uid) req genTitle umid steps now db).2.1 =
        .data "user-message-id" umid ::
        (runTurn (some uid) now steps
          (POST models (some uid) req genTitle umid now db).db).1 := by
  cases hchat : getChatById db req.id with
  | none =>
      refine ⟨?_, ?_, ?_⟩ <;>
        simp [POST, handlePost, executeStream, hfind, hmsg, hchat,
          saveChat, saveMessages, PostOutcome.db]
  | some chat =>
      refine ⟨?_, ?_, ?_⟩ <;>
        simp [POST, handlePost, executeStream, hfind, hmsg, hchat,
          saveMessages, PostOutcome.db]

/-- Witness for C8: a concrete successful POST with an empty model turn;
the stream is exactly the `user-message-id` record. -/
theorem stream_first_event_witness :
    (POST [⟨"m", "gpt"⟩] (some "alice") ⟨"c1", [⟨Role.user, "hi"⟩], "m"⟩
        (fun _ => "T") "u1" 5 ⟨[], [], [], []⟩).db.messages.head? =
      some ⟨"u1", "c1", Role.user, "hi", 5⟩
    ∧ (handlePost [⟨"m", "gpt"⟩] (some "alice")
        ⟨"c1", [⟨Role.user, "hi"⟩], "m"⟩ (fun _ => "T") "u1" [] 5
        ⟨[], [], [], []⟩).1 = 200 :=
  ⟨(stream_first_event [⟨"m", "gpt"⟩] "alice" ⟨"c1", [⟨Role.user, "hi"⟩], "m"⟩
      (fun _ => "T") "u1" [] 5 ⟨[], [], [], []⟩ ⟨"m", "gpt"⟩
      ⟨Role.user, "hi"⟩ rfl rfl).1,
   (stream_first_event [⟨"m", "gpt"⟩] "alice" ⟨"c1", [⟨Role.user, "hi"⟩], "m"⟩
      (fun _ => "T") "u1" [] 5 ⟨[], [], [], []⟩ ⟨"m", "gpt"⟩
      ⟨Role.user, "hi"⟩ rfl rfl).2.1⟩

/-- Identifiers drawn in order from the supply: `idsFrom f k n` is
`[f k, f (k+1), ..., f (k+n-1)]`. -/
def idsFrom (f : Nat → String) : Nat → Nat → List String
  | _, 0 => []
  | k, n + 1 => f k :: idsFrom f (k + 1) n

/-- Rows built by the onFinish map keep exactly the sanitized roles and
contents, in order. -/
theorem mapWithIds_roleContent (f : Nat → String) (cid : String) (now : Nat) :
    ∀ (k : Nat) (ms : List ResponseMessage),
      (mapWithIds f cid now k ms).1.map (fun r => (r.role, r.content)) =
        ms.map (fun m => (m.role, m.content))
  | _, [] => rfl
  | k, m :: rest => by
      simp [mapWithIds, mapWithIds_roleContent f cid now (k + 1) rest]

/-- Rows built by the onFinish map carry identifiers drawn in order from
the fresh-identifier supply. -/
theorem mapWithIds_ids (f : Nat → String) (cid : String) (now : Nat) :
    ∀ (k : Nat) (ms : List ResponseMessage),
      (mapWithIds f cid now k ms).1.map (fun r => r.id) =
        idsFrom f k ms.length
  | _, [] => rfl
  | k, m :: rest => by
      simp [mapWithIds, idsFrom, mapWithIds_ids f cid now (k + 1) rest]

/-- Annotations written by the onFinish map: one per assistant-role
message, in order, each carrying the identifier of that message's row. -/
theorem mapWithIds_annots (f : Nat → String) (cid : String) (now : Nat) :
    ∀ (k : Nat) (ms : List ResponseMessage),
      (mapWithIds f cid now k ms).2 =
        ((mapWithIds f cid now k ms).1.zip ms).filterMap (fun p =>
          if p.2.role = Role.assistant then some (.annot p.1.id) else none)
  | _, [] => rfl
  | k, m :: rest => by
      by_cases h : m.role = Role.assistant <;>
        simp [mapWithIds, h, mapWithIds_annots f cid now (k + 1) rest]

/-- Claim C6: on stream completion the messages representing incomplete
tool invocations are stripped, every remaining message is persisted with
an identifier drawn fresh from the supply, one server-identifier
annotation is emitted per assistant-role message carrying that message's
persisted identifier, and a persistence failure leaves the store untouched
without disturbing the stream (the callback still returns its events). -/
theorem onFinish_sanitizes_and_swallows (cid : String)
    (msgs : List ResponseMessage) (f : Nat → String) (u : String)
    (now : Nat) (db : DB) :
    (onFinish (some u) cid msgs f true now db).2 = db
    ∧ (onFinish (some u) cid msgs f true now db).1 =
        (onFinish (some u) cid msgs f false now db).1
    ∧ (onFinish (some u) cid msgs f false now db).2 =
        saveMessages db
          (mapWithIds f cid now 0 (msgs.filter (fun m => !m.incompleteToolCall))).1
    ∧ (mapWithIds f cid now 0
        (msgs.filter (fun m => !m.incompleteToolCall))).1.map
          (fun r => (r.role, r.content)) =
        (msgs.filter (fun m => !m.incompleteToolCall)).map
          (fun m => (m.role, m.content))
    ∧ (mapWithIds f cid now 0
        (msgs.filter (fun m => !m.incompleteToolCall))).1.map (fun r => r.id) =
        idsFrom f 0 (msgs.filter (fun m => !m.incompleteToolCall)).length
    ∧ (onFinish (some u) cid msgs f false now db).1 =
        ((mapWithIds f cid now 0
            (msgs.filter (fun m => !m.incompleteToolCall))).1.zip
          (msgs.filter (fun m => !m.incompleteToolCall))).filterMap (fun p =>
            if p.2.role = Role.assistant then some (.annot p.1.id) else none) := by
  refine ⟨rfl, rfl, rfl, ?_, ?_, ?_⟩
  · exact mapWithIds_roleContent f cid now 0 _
  · exact mapWithIds_ids f cid now 0 _
  · exact mapWithIds_annots f cid now 0 _

/-- Counterexample for C3 as stated: on a store without document "d1" the
tool's error field reads "Document not found" (capital D), not the claimed
"document not found"; events and store are untouched. -/
theorem updateDocument_message_counterexample :
    (updateDocumentExecute (some "alice") "d1" "fix typos" [] [] 0
        ⟨[], [], [], []⟩).result = .errorRes "Document not found"
    ∧ (updateDocumentExecute (some "alice") "d1" "fix typos" [] [] 0
        ⟨[], [], [], []⟩).result ≠ .errorRes "document not found"
    ∧ (updateDocumentExecute (some "alice") "d1" "fix typos" [] [] 0
        ⟨[], [], [], []⟩).events = []
    ∧ (updateDocumentExecute (some "alice") "d1" "fix typos" [] [] 0
        ⟨[], [], [], []⟩).db = ⟨[], [], [], []⟩ := by
  refine ⟨rfl, ?_, rfl, rfl⟩
  decide

/-- Claim C3 (amended): an updateDocument invocation whose id matches no
stored document returns a result object whose error field is "Document not
found", emits no stream event and performs no write — the store comes back
unchanged. -/
theorem updateDocument_not_found (su : Option String)
    (docId descr : String) (tg : List TextStreamDelta)
    (cg : List ObjStreamDelta) (now : Nat) (db : DB)
    (h : getDocumentById db docId = none) :
    updateDocumentExecute su docId descr tg cg now db =
      { events := [], db := db, result := .errorRes "Document not found" } := by
  simp [updateDocumentExecute, h]

/-- Witness for C3 on a concrete empty store. -/
theorem updateDocument_not_found_witness :
    updateDocumentExecute (some "alice") "d1" "fix typos" [] [] 0
        ⟨[], [], [], []⟩ =
      { events := [], db := ⟨[], [], [], []⟩,
        result := .errorRes "Document not found" } :=
  updateDocument_not_found (some "alice") "d1" "fix typos" [] [] 0
    ⟨[], [], [], []⟩ rfl

/-- Claim C9: updateDocument on an existing document first streams a
`clear` event whose content is the stored title, and the record written at
the end keeps the identifier, the kind, the title and even the creation
time of the fetched document — only the content is replaced by the newly
generated draft. -/
theorem updateDocument_preserves_identity (u docId descr : String)
    (tg : List TextStreamDelta) (cg : List ObjStreamDelta) (now : Nat)
    (db : DB) (document : Document)
    (h : getDocumentById db docId = some document) :
    (updateDocumentExecute (some u) docId descr tg cg now db).events.head? =
      some (.data "clear" document.title)
    ∧ getDocumentById
        (updateDocumentExecute (some u) docId descr tg cg now db).db docId =
      some { id := docId, title := document.title, kind := document.kind,
             content := match document.kind with
               | .text => textDraft tg
               | .code => codeDraft cg,
             userId := u, createdAt := document.createdAt } := by
  have hfind : db.documents.find? (fun d => d.id == docId) = some document := h
  constructor
  · simp [updateDocumentExecute, h]
  · cases hk : document.kind <;>
      simp [updateDocumentExecute, h, hk, saveDocument, hfind,
        getDocumentById, List.find?_cons]

/-- Witness for C9: updating a stored code document replaces only its
content. -/
theorem updateDocument_preserves_identity_witness :
    (updateDocumentExecute (some "alice") "d1" "edit"
        [] [.object (some "print(2)")] 9
        ⟨[], [], [⟨"d1", "Script", .code, "print(1)", "alice", 3⟩], []⟩).events.head? =
      some (.data "clear" "Script")
    ∧ getDocumentById
        (updateDocumentExecute (some "alice") "d1" "edit"
          [] [.object (some "print(2)")] 9
          ⟨[], [], [⟨"d1", "Script", .code, "print(1)", "alice", 3⟩], []⟩).db
        "d1" =
      some ⟨"d1", "Script", .code, "print(2)", "alice", 3⟩ :=
  updateDocument_preserves_identity "alice" "d1" "edit"
    [] [.object (some "print(2)")] 9
    ⟨[], [], [⟨"d1", "Script", .code, "print(1)", "alice", 3⟩], []⟩
    ⟨"d1", "Script", .code, "print(1)", "alice", 3⟩ rfl

/-- Wire objects built by the suggestions loop carry exactly the produced
elements' texts, the requested documentId and an unresolved flag, in
production order. -/
theorem buildSuggestions_fields (f : Nat → String) (d : String) :
    ∀ (k : Nat) (els : List SuggElement),
      (buildSuggestions f d k els).map (fun w =>
          (w.originalText, w.suggestedText, w.description, w.documentId,
           w.isResolved)) =
        els.map (fun e =>
          (e.originalSentence, e.suggestedSentence, e.description, d, false))
  | _, [] => rfl
  | k, el :: rest => by
      simp [buildSuggestions, suggWireOf,
        buildSuggestions_fields f d (k + 1) rest]

/-- The suggestions loop builds one wire object per produced element. -/
theorem buildSuggestions_length (f : Nat → String) (d : String) :
    ∀ (k : Nat) (els : List SuggElement),
      (buildSuggestions f d k els).length = els.length
  | _, [] => rfl
  | k, el :: rest => by
      simp [buildSuggestions, buildSuggestions_length f d (k + 1) rest]

/-- Every wire object built by the suggestions loop targets the requested
document. -/
theorem buildSuggestions_documentId (f : Nat → String) (d : String) :
    ∀ (k : Nat) (els : List SuggElement),
      ∀ w ∈ buildSuggestions f d k els, w.documentId = d
  | _, [] => by intro w hw; cases hw
  | k, el :: rest => by
      intro w hw
      cases hw with
      | head => rfl
      | tail _ hw => exact buildSuggestions_documentId f d (k + 1) rest w hw

/-- Claim C5: on a document that exists with non-empty content,
requestSuggestions emits exactly one suggestion event per produced
element, in production order, then persists exactly that many Suggestion
rows in one batch, each carrying the requested documentId and the
document's creation time; on an absent document or empty content it
returns a tool-level error result and persists nothing. -/
theorem requestSuggestions_spec (u documentId : String)
    (els : List SuggElement) (f : Nat → String) (now : Nat) (db : DB) :
    (∀ document, getDocumentById db documentId = some document →
      document.content ≠ "" →
      (requestSuggestionsExecute (some u) documentId els f now db).events =
        (buildSuggestions f documentId 0 els).map StreamEvent.suggestion
      ∧ (requestSuggestionsExecute (some u) documentId els f now db).events.length
          = els.length
      ∧ (buildSuggestions f documentId 0 els).map (fun w =>
            (w.originalText, w.suggestedText, w.description, w.documentId,
             w.isResolved)) =
          els.map (fun e =>
            (e.originalSentence, e.suggestedSentence, e.description,
             documentId, false))
      ∧ (requestSuggestionsExecute (some u) documentId els f now db).db.suggestions =
          (buildSuggestions f documentId 0 els).map
            (suggestionRowOf u now document.createdAt) ++ db.suggestions
      ∧ ((buildSuggestions f documentId 0 els).map
            (suggestionRowOf u now document.createdAt)).length = els.length
      ∧ (∀ r ∈ (buildSuggestions f documentId 0 els).map
            (suggestionRowOf u now document.createdAt),
          r.documentId = documentId
          ∧ r.documentCreatedAt = document.createdAt
          ∧ r.userId = u ∧ r.createdAt = now)
      ∧ (requestSuggestionsExecute (some u) documentId els f now db).result =
          .suggRes documentId document.title document.kind.str
            "Suggestions have been added to the document")
    ∧ (getDocumentById db documentId = none →
        requestSuggestionsExecute (some u) documentId els f now db =
          { events := [], db := db, result := .errorRes "Document not found" })
    ∧ (∀ document, getDocumentById db documentId = some document →
        document.content = "" →
        requestSuggestionsExecute (some u) documentId els f now db =
          { events := [], db := db,
            result := .errorRes "Document not found" }) := by
  refine ⟨?_, ?_, ?_⟩
  · intro document hdoc hcontent
    refine ⟨?_, ?_, buildSuggestions_fields f documentId 0 els, ?_, ?_, ?_, ?_⟩
    · simp [requestSuggestionsExecute, hdoc, hcontent]
    · simp [requestSuggestionsExecute, hdoc, hcontent,
        buildSuggestions_length f documentId 0 els]
    · simp [requestSuggestionsExecute, hdoc, hcontent, saveSuggestions]
    · simp [buildSuggestions_length f documentId 0 els]
    · intro r hr
      rcases List.mem_map.mp hr with ⟨w, hw, rfl⟩
      exact ⟨buildSuggestions_documentId f documentId 0 els w hw, rfl, rfl, rfl⟩
    · simp [requestSuggestionsExecute, hdoc, hcontent]
  · intro hdoc
    simp [requestSuggestionsExecute, hdoc]
  · intro document hdoc hcontent
    simp [requestSuggestionsExecute, hdoc, hcontent]

/-- Witness for C5: two elements against a stored document with content,
and the error case against a store without the document. -/
theorem requestSuggestions_spec_witness :
    (requestSuggestionsExecute (some "alice") "d1"
        [⟨"a", "b", "c"⟩, ⟨"d", "e", "g"⟩] (fun k => toString k) 9
        ⟨[], [], [⟨"d1", "Essay", .text, "hello", "alice", 3⟩], []⟩).events.length
      = 2
    ∧ (requestSuggestionsExecute (some "alice") "d1"
        [⟨"a", "b", "c"⟩, ⟨"d", "e", "g"⟩] (fun k => toString k) 9
        ⟨[], [], [], []⟩) =
      { events := [], db := ⟨[], [], [], []⟩,
        result := .errorRes "Document not found" } :=
  ⟨((requestSuggestions_spec "alice" "d1" [⟨"a", "b", "c"⟩, ⟨"d", "e", "g"⟩]
      (fun k => toString k) 9
      ⟨[], [], [⟨"d1", "Essay", .text, "hello", "alice", 3⟩], []⟩).1
      ⟨"d1", "Essay", .text, "hello", "alice", 3⟩ rfl (by decide)).2.1,
   (requestSuggestions_spec "alice" "d1" [⟨"a", "b", "c"⟩, ⟨"d", "e", "g"⟩]
      (fun k => toString k) 9 ⟨[], [], [], []⟩).2.1 rfl⟩

/-- A code value the loop acts on is never the empty string (JS
truthiness of `if (code)`). -/
theorem emittedCode_ne (d : ObjStreamDelta) (c : String)
    (h : emittedCode d = some c) : c ≠ "" := by
  cases d with
  | other => exact absurd h (by simp [emittedCode])
  | object co =>
    cases co with
    | none => exact absurd h (by simp [emittedCode])
    | some s =>
      by_cases hs : s = ""
      · simp [emittedCode, hs] at h
      · simp [emittedCode, hs] at h
        exact h ▸ hs

/-- The draft left by a code loop is empty when no code-delta was emitted,
and otherwise is exactly the value of the last emitted code-delta. -/
theorem codeDraft_last (cg : List ObjStreamDelta) :
    (codeEvents cg = [] → codeDraft cg = "")
    ∧ (codeEvents cg ≠ [] →
        (codeEvents cg).getLast? =
          some (.data "code-delta" (codeDraft cg))) := by
  induction cg using List.reverseRecOn with
  | nil => exact ⟨fun _ => rfl, fun h => absurd rfl h⟩
  | append_singleton l d ih =>
    cases hd : emittedCode d with
    | none =>
      have he : codeEvents (l ++ [d]) = codeEvents l := by
        simp [codeEvents, List.filterMap_append, hd]
      have hdr : codeDraft (l ++ [d]) = codeDraft l := by
        simp [codeDraft, List.foldl_append, hd]
      rw [he, hdr]
      exact ih
    | some c =>
      have he : codeEvents (l ++ [d]) =
          codeEvents l ++ [.data "code-delta" c] := by
        simp [codeEvents, List.filterMap_append, hd]
      have hdr : codeDraft (l ++ [d]) = c := by
        simp [codeDraft, List.foldl_append, hd]
      rw [he, hdr]
      refine ⟨fun h => absurd h (by simp), fun _ => ?_⟩
      simp [List.getLast?_concat]

/-- Events of sequential turn segments concatenate: the turn over
`l1 ++ l2` is the turn over `l1` followed by the turn over `l2` on the
store `l1` left. -/
theorem runTurn_append (su : Option String) (now : Nat)
    (l1 l2 : List TurnStep) (db : DB) :
    runTurn su now (l1 ++ l2) db =
      ((runTurn su now l1 db).1 ++
        (runTurn su now l2 (runTurn su now l1 db).2).1,
       (runTurn su now l2 (runTurn su now l1 db).2).2) := by
  induction l1 generalizing db with
  | nil => simp [runTurn]
  | cons s rest ih => simp [runTurn, ih]

/-- Counterexample for C4 as stated: a code sub-generation that yields no
truthy code value produces the sequence [id, title, kind, clear, finish]
with zero code-delta events, so the pattern "one or more code-delta" does
not hold of every invocation. -/
theorem createDocument_code_counterexample :
    (createDocumentExecute (some "alice") "d1" "Script" .code [] [] 0
        ⟨[], [], [], []⟩).events =
      [.data "id" "d1", .data "title" "Script", .data "kind" "code",
       .data "clear" "", .data "finish" ""]
    ∧ (createDocumentExecute (some "alice") "d1" "Script" .code [] [] 0
        ⟨[], [], [], []⟩).events.countP (fun e =>
          match e with
          | .data ty _ => ty == "code-delta"
          | _ => false) = 0 := by
  exact ⟨rfl, rfl⟩

/-- Claim C4 (amended): a createDocument invocation with kind=code writes
exactly one id, one title, one kind and one clear event, then zero or more
code-delta events — one per sub-generation delta carrying a nonempty code
value, in stream order — then one finish event; each code-delta carries
the whole current value and replaces the draft, so the persisted document
content equals the last emitted code value (empty when none was emitted);
and within a turn no other segment's events interleave with the tool's
contiguous block. -/
theorem createDocument_code_sequence (u docId title : String)
    (tg : List TextStreamDelta) (cg : List ObjStreamDelta) (now : Nat)
    (db : DB) :
    (createDocumentExecute (some u) docId title .code tg cg now db).events =
      [.data "id" docId, .data "title" title, .data "kind" "code",
       .data "clear" ""] ++ codeEvents cg ++ [.data "finish" ""]
    ∧ (∀ e ∈ codeEvents cg, ∃ c, c ≠ "" ∧ e = .data "code-delta" c)
    ∧ (codeEvents cg = [] → codeDraft cg = "")
    ∧ (codeEvents cg ≠ [] →
        (codeEvents cg).getLast? =
          some (.data "code-delta" (codeDraft cg)))
    ∧ (getDocumentById
          (createDocumentExecute (some u) docId title .code tg cg now db).db
          docId).map (fun d => d.content) = some (codeDraft cg)
    ∧ (∀ pre post db0,
        (runTurn (some u) now
            (pre ++ .createDoc docId title .code tg cg :: post) db0).1 =
          (runTurn (some u) now pre db0).1
          ++ (createDocumentExecute (some u) docId title .code tg cg now
                (runTurn (some u) now pre db0).2).events
          ++ (runTurn (some u) now post
                (createDocumentExecute (some u) docId title .code tg cg now
                  (runTurn (some u) now pre db0).2).db).1) := by
  refine ⟨rfl, ?_, (codeDraft_last cg).1, (codeDraft_last cg).2, ?_, ?_⟩
  · intro e he
    rcases List.mem_filterMap.mp he with ⟨d, _, hd⟩
    cases hco : emittedCode d with
    | none => rw [hco] at hd; cases hd
    | some c =>
      rw [hco] at hd
      exact ⟨c, emittedCode_ne d c hco, (Option.some_inj.mp hd).symm⟩
  · cases hfind : db.documents.find? (fun d => d.id == docId) <;>
      simp [createDocumentExecute, saveDocument, hfind, getDocumentById]
  · intro pre post db0
    rw [runTurn_append]
    simp [runTurn, runStep]

/-- Witness for C4 at a concrete input with one truthy code delta: the
last code-delta carries the draft that is persisted. -/
theorem createDocument_code_sequence_witness :
    (codeEvents [.object (some "print(1)")]).getLast? =
      some (.data "code-delta" (codeDraft [.object (some "print(1)")]))
    ∧ (getDocumentById
          (createDocumentExecute (some "alice") "d1" "Script" .code []
            [.object (some "print(1)")] 0 ⟨[], [], [], []⟩).db
          "d1").map (fun d => d.content) =
        some (codeDraft [.object (some "print(1)")]) :=
  ⟨(createDocument_code_sequence "alice" "d1" "Script" []
      [.object (some "print(1)")] 0 ⟨[], [], [], []⟩).2.2.2.1 (by decide),
   (createDocument_code_sequence "alice" "d1" "Script" []
      [.object (some "print(1)")] 0 ⟨[], [], [], []⟩).2.2.2.2.1⟩

/-- Deleting a chat removes its row: a subsequent fetch by the same id
finds nothing. -/
theorem getChatById_delete (db : DB) (id : String) :
    getChatById (deleteChatById db id) id = none := by
  rw [getChatById, List.find?_eq_none]
  intro c hc
  rw [deleteChatById] at hc
  simp only [List.mem_filter] at hc
  simpa using hc.2

/-- Counterexample for C2 as stated: after the owner's successful DELETE,
a second DELETE for the same id returns 500 — the missing row makes the
handler's `chat.userId` access throw inside the try block — not 401 or
404. -/
theorem delete_second_call_counterexample :
    (DELETE (some "alice") (some "c1")
        ⟨[⟨"c1", "alice", "T"⟩], [⟨"m1", "c1", Role.user, "hi", 0⟩], [], []⟩).1
      = 200
    ∧ (DELETE (some "alice") (some "c1")
        (DELETE (some "alice") (some "c1")
          ⟨[⟨"c1", "alice", "T"⟩],
           [⟨"m1", "c1", Role.user, "hi", 0⟩], [], []⟩).2).1 = 500
    ∧ ¬((DELETE (some "alice") (some "c1")
          (DELETE (some "alice") (some "c1")
            ⟨[⟨"c1", "alice", "T"⟩],
             [⟨"m1", "c1", Role.user, "hi", 0⟩], [], []⟩).2).1 = 401
        ∨ (DELETE (some "alice") (some "c1")
            (DELETE (some "alice") (some "c1")
              ⟨[⟨"c1", "alice", "T"⟩],
               [⟨"m1", "c1", Role.user, "hi", 0⟩], [], []⟩).2).1 = 404) := by
  decide

/-- Claim C2 (amended): with an id parameter and a valid session, a
requester different from the stored owner gets 401 with the chat and its
messages intact; the owner's DELETE removes the chat row and all its
message rows and returns 200; and a second DELETE for the same id after a
successful delete returns 500 (the missing-row fetch throws inside the try
block and the catch-all maps it to the generic server error). -/
theorem delete_ownership (uid id : String) (db : DB) (chat : Chat)
    (hchat : getChatById db id = some chat) :
    (chat.userId ≠ uid → DELETE (some uid) (some id) db = (401, db))
    ∧ (chat.userId = uid →
        DELETE (some uid) (some id) db = (200, deleteChatById db id)
        ∧ getChatById (deleteChatById db id) id = none
        ∧ ((deleteChatById db id).messages.all
            (fun m => m.chatId != id)) = true
        ∧ DELETE (some uid) (some id) (deleteChatById db id) =
            (500, deleteChatById db id)) := by
  constructor
  · intro hown
    simp [DELETE, hchat, hown]
  · intro hown
    refine ⟨by simp [DELETE, hchat, hown], getChatById_delete db id, ?_, ?_⟩
    · simp [deleteChatById, List.all_eq_true, List.mem_filter]
    · simp [DELETE, getChatById_delete db id]

/-- Witness for C2: bob is refused on alice's chat; alice's delete
succeeds. -/
theorem delete_ownership_witness :
    DELETE (some "bob") (some "c1")
        ⟨[⟨"c1", "alice", "T"⟩], [], [], []⟩ =
      (401, ⟨[⟨"c1", "alice", "T"⟩], [], [], []⟩)
    ∧ DELETE (some "alice") (some "c1")
        ⟨[⟨"c1", "alice", "T"⟩], [], [], []⟩ =
      (200, deleteChatById ⟨[⟨"c1", "alice", "T"⟩], [], [], []⟩ "c1") :=
  ⟨(delete_ownership "bob" "c1" ⟨[⟨"c1", "alice", "T"⟩], [], [], []⟩
      ⟨"c1", "alice", "T"⟩ rfl).1 (by decide),
   ((delete_ownership "alice" "c1" ⟨[⟨"c1", "alice", "T"⟩], [], [], []⟩
      ⟨"c1", "alice", "T"⟩ rfl).2 rfl).1⟩

end ChatBox
